import Mathlib

/-!
Shallow embedding of the `emitting` event-emitter library (src/index.ts).

The TypeScript class `EventEmitter` keeps `listeners : Map<Key, Set<Listener>>`.
We model:

* event names and payloads as `Nat` (they are opaque keys / opaque values);
* listener functions by their JS reference identity, a `Nat` id, together with
  an environment `Env.beh` assigning each id a body: a list of primitive
  commands (`Cmd`), possibly depending on how many times the listener has been
  invoked so far (a closure over a mutable counter can do this in JS);
* a JS `Map` as an association list (`lookupA` / `updateA` / `removeA`);
* a JS `Set` of listeners as an insertion-ordered list of entries
  `(id, alive)`.  A deleted entry is kept as a tombstone (`alive = false`) so
  that iteration behaves like JS `Set.forEach`: entries deleted before being
  reached are skipped, entries added during iteration are appended and are
  visited by the in-progress iteration;
* `Set` objects have their own identity (`sid`), and the registry maps an
  event to the current set id.  This models JS aliasing: `emit` grabs the set
  object once (`this.listeners.get(event)`) while `off` removes the map entry
  without clearing the set object;
* promises (`createDeferred`) as settle-once cells `DStatus` stored per
  deferred id, and `setTimeout` timers as per-id active flags;
* re-entrant execution (listeners emitting, subscribing, unsubscribing) by a
  fuel-indexed interpreter `step` over explicit operation frames `Op`.
-/

namespace Emitting

/-- Status of a deferred (the promise made by `createDeferred`): pending,
resolved with a payload, or rejected with an optional payload
(`none` models rejection with `undefined`). -/
inductive DStatus where
  | pending
  | resolved (v : Nat)
  | rejected (v : Option Nat)
deriving DecidableEq, Repr

/-- Primitive commands a listener body (or a timer callback) can perform.
`v` below refers to the payload the listener was invoked with. -/
inductive Cmd where
  /-- An opaque user side effect: record `(tag, v)` in the observation log. -/
  | note (tag : Nat)
  /-- Call `emitter.on(e, listener lid)` (discarding the returned handle). -/
  | onL (e lid : Nat)
  /-- Run the unsubscribe closure returned by `on(e, listener lid)`. -/
  | unsubL (e lid : Nat)
  /-- Call `emitter.emit(e, v2)` with a fixed payload. -/
  | emitC (e v2 : Nat)
  /-- Call `emitter.emit(e, v)` with the received payload. -/
  | emitV (e : Nat)
  /-- Call `emitter.off(e)`. -/
  | offC (e : Nat)
  /-- Invoke listener `lid` with the received payload (`listener(value)`). -/
  | callL (lid : Nat)
  /-- Call `resolve(v)` of deferred `d` with the received payload. -/
  | resolveD (d : Nat)
  /-- Call `reject(undefined)` of deferred `d`. -/
  | rejectU (d : Nat)
  /-- Call `reject(v)` of deferred `d` with the received payload. -/
  | rejectV (d : Nat)
  /-- Call `clearTimeout(t)`. -/
  | clearT (t : Nat)
deriving DecidableEq, Repr

/-- The (immutable) code environment: the body of each listener identity and
of each timer callback.  `beh lid k` is the command list run when listener
`lid` is invoked for the `(k+1)`-th time. -/
structure Env where
  beh : Nat → Nat → List Cmd
  tbeh : Nat → List Cmd

/-- Association-list lookup, modelling `Map.get` (keys are unique). -/
def lookupA {α : Type} : List (Nat × α) → Nat → Option α
  | [], _ => none
  | (k, a) :: l, k2 => if k = k2 then some a else lookupA l k2

/-- Association-list update, modelling `Map.set`: replaces in place if the key
is present, otherwise appends. -/
def updateA {α : Type} : List (Nat × α) → Nat → α → List (Nat × α)
  | [], k, a => [(k, a)]
  | (k2, b) :: l, k, a => if k2 = k then (k, a) :: l else (k2, b) :: updateA l k a

/-- Association-list removal, modelling `Map.delete`. -/
def removeA {α : Type} : List (Nat × α) → Nat → List (Nat × α)
  | [], _ => []
  | (k2, b) :: l, k => if k2 = k then l else (k2, b) :: removeA l k

/-- One listener `Set`: insertion-ordered entries `(listener id, alive)`;
dead entries are tombstones kept to model JS `Set` iteration. -/
def SetEntries : Type := List (Nat × Bool)

/-- Does the set contain listener `lid` (ignoring tombstones)?  Models
`Set.has` / the membership test of `Set.add`. -/
def setHasAlive (l : List (Nat × Bool)) (lid : Nat) : Bool :=
  l.any (fun p => p.1 = lid && p.2)

/-- `Set.add`: a no-op if the identity is already present, otherwise the new
entry is appended (JS sets are insertion-ordered). -/
def setAdd (l : List (Nat × Bool)) (lid : Nat) : List (Nat × Bool) :=
  if setHasAlive l lid then l else l ++ [(lid, true)]

/-- `Set.delete lid`: the entry for `lid` becomes a tombstone. -/
def setDelete (l : List (Nat × Bool)) (lid : Nat) : List (Nat × Bool) :=
  l.map (fun p => if p.1 = lid then (p.1, false) else p)

/-- The full emitter state plus the observation log of the run. -/
structure EState where
  /-- All `Set` objects ever allocated, by set id. -/
  sets : List (Nat × List (Nat × Bool))
  /-- `this.listeners`: event name to current set id. -/
  registry : List (Nat × Nat)
  /-- Allocator for fresh set ids. -/
  nextSid : Nat
  /-- Log of listener invocations `(listener id, payload)`, oldest first. -/
  calls : List (Nat × Nat)
  /-- Log of `Cmd.note` user effects `(tag, payload)`, oldest first. -/
  notes : List (Nat × Nat)
  /-- All deferreds, by deferred id. -/
  deferreds : List (Nat × DStatus)
  /-- All timers, by timer id; `false` = cleared or already fired. -/
  timers : List (Nat × Bool)
deriving DecidableEq, Repr

/-- A freshly constructed emitter (`new EventEmitter()`), with empty logs. -/
def init : EState :=
  { sets := [], registry := [], nextSid := 0, calls := [], notes := [],
    deferreds := [], timers := [] }

/-- `on(event, listener)`, state effect: if the registry has no entry for the
event, allocate a fresh empty set for it; then add the listener to the
event's set.  (The returned unsubscribe closure is modelled by `unsub`.) -/
def onE (e lid : Nat) (s : EState) : EState :=
  let s1 :=
    match lookupA s.registry e with
    | some _ => s
    | none =>
      { s with sets := s.sets ++ [(s.nextSid, [])],
               registry := updateA s.registry e s.nextSid,
               nextSid := s.nextSid + 1 }
  match lookupA s1.registry e with
  | none => s1
  | some sid =>
    match lookupA s1.sets sid with
    | none => s1
    | some entries => { s1 with sets := updateA s1.sets sid (setAdd entries lid) }

/-- The unsubscribe closure returned by `on(e, listener lid)`:
`() => { const exists = this.listeners.get(event); if (exists) { exists.delete(listener) } }`.
It reads the registry at call time, so it acts on whatever set is current. -/
def unsub (e lid : Nat) (s : EState) : EState :=
  match lookupA s.registry e with
  | none => s
  | some sid =>
    match lookupA s.sets sid with
    | none => s
    | some entries => { s with sets := updateA s.sets sid (setDelete entries lid) }

/-- `off(event)`: `this.listeners.delete(event)`.  Only the registry entry is
removed; the set object itself is not cleared. -/
def off (e : Nat) (s : EState) : EState :=
  { s with registry := removeA s.registry e }

/-- How many times listener `lid` has been invoked so far in this run. -/
def countCalls (lid : Nat) (s : EState) : Nat :=
  (s.calls.filter (fun p => p.1 = lid)).length

/-- The `resolve` of `createDeferred`: settles the deferred if it is still
pending, otherwise does nothing (a promise settles at most once). -/
def resolveDef (d v : Nat) (s : EState) : EState :=
  match lookupA s.deferreds d with
  | some DStatus.pending =>
    { s with deferreds := updateA s.deferreds d (DStatus.resolved v) }
  | _ => s

/-- The `reject` of `createDeferred`: settles the deferred if it is still
pending, otherwise does nothing. -/
def rejectDef (d : Nat) (v : Option Nat) (s : EState) : EState :=
  match lookupA s.deferreds d with
  | some DStatus.pending =>
    { s with deferreds := updateA s.deferreds d (DStatus.rejected v) }
  | _ => s

/-- `clearTimeout(t)`: deactivates the timer if it exists. -/
def clearTimer (t : Nat) (s : EState) : EState :=
  match lookupA s.timers t with
  | some _ => { s with timers := updateA s.timers t false }
  | none => s

/-- Operation frames of the interpreter: emitting, iterating a set with
`forEach`, invoking one listener, running a command (list). -/
inductive Op where
  /-- `emit(e, v)`. -/
  | opEmit (e v : Nat)
  /-- In-progress `forEach` over set object `sid` at entry index `i`,
  with payload `v`. -/
  | opForEach (sid v i : Nat)
  /-- Invoke listener `lid` with payload `v`. -/
  | opInvoke (lid v : Nat)
  /-- Run one command with received payload `v`. -/
  | opCmd (v : Nat) (c : Cmd)
  /-- Run a command list with received payload `v`. -/
  | opCmds (v : Nat) (cs : List Cmd)
deriving Repr

/-- The fuel-indexed interpreter.  Out of fuel, it leaves the state unchanged;
all theorems below quantify over surplus fuel (`f + c`), so they only hold of
runs that actually complete.

`opEmit` models `emit`: it reads the event's current set object once and then
iterates it (`listeners.forEach((fn) => fn(value))`); the iteration re-reads
that same set object at every index, so deletions and additions made by
listeners during the emission are observed, exactly as with a live JS `Set`.
`opInvoke` records the call and runs the listener's body. -/
def step (env : Env) : Nat → Op → EState → EState
  | 0, _, s => s
  | f + 1, op, s =>
    match op with
    | Op.opEmit e v =>
      match lookupA s.registry e with
      | none => s
      | some sid => step env f (Op.opForEach sid v 0) s
    | Op.opForEach sid v i =>
      match lookupA s.sets sid with
      | none => s
      | some entries =>
        match entries[i]? with
        | none => s
        | some p =>
          let s2 := if p.2 then step env f (Op.opInvoke p.1 v) s else s
          step env f (Op.opForEach sid v (i + 1)) s2
    | Op.opInvoke lid v =>
      step env f (Op.opCmds v (env.beh lid (countCalls lid s)))
        { s with calls := s.calls ++ [(lid, v)] }
    | Op.opCmds _ [] => s
    | Op.opCmds v (c :: cs) =>
      step env f (Op.opCmds v cs) (step env f (Op.opCmd v c) s)
    | Op.opCmd v c =>
      match c with
      | Cmd.note tag => { s with notes := s.notes ++ [(tag, v)] }
      | Cmd.onL e lid => onE e lid s
      | Cmd.unsubL e lid => unsub e lid s
      | Cmd.emitC e v2 => step env f (Op.opEmit e v2) s
      | Cmd.emitV e => step env f (Op.opEmit e v) s
      | Cmd.offC e => off e s
      | Cmd.callL lid => step env f (Op.opInvoke lid v) s
      | Cmd.resolveD d => resolveDef d v s
      | Cmd.rejectU d => rejectDef d none s
      | Cmd.rejectV d => rejectDef d (some v) s
      | Cmd.clearT t => clearTimer t s

/-- `emit(event, value)`. -/
def emit (env : Env) (f e v : Nat) (s : EState) : EState :=
  step env f (Op.opEmit e v) s

/-- `emitCallback(event)`: `return (value) => this.emit(event, value)`. -/
def emitCallback (env : Env) (f e : Nat) : Nat → EState → EState :=
  fun v s => emit env f e v s

/-- The body of the adapter closure created by `once(e, listener l)` when the
adapter gets identity `w`: `(value) => { listener(value); unsubscribe() }`,
where `unsubscribe` is the handle `on` returned for the adapter itself. -/
def onceProg (e w l : Nat) : List Cmd :=
  [Cmd.callL l, Cmd.unsubL e w]

/-- `once(event, listener l)`, state effect: registers the adapter (identity
`w`, body `onceProg e w l`) through the ordinary `on`. -/
def once (e w l : Nat) (s : EState) : EState :=
  onE e w s

/-- `createDeferred()`, state effect: a fresh pending deferred with id `d`. -/
def createDeferred (d : Nat) (s : EState) : EState :=
  { s with deferreds := s.deferreds ++ [(d, DStatus.pending)] }

/-- `setTimeout(cb, ms)`, state effect: a fresh active timer with id `tid`
(the callback body lives in `Env.tbeh tid`; real time is not modelled, the
timer elapsing is the external step `fireTimer`). -/
def setTimer (tid : Nat) (s : EState) : EState :=
  { s with timers := s.timers ++ [(tid, true)] }

/-- The timer with id `tid` elapses: if it is still active it is spent and its
callback body runs (a timer callback receives no payload; `0` is passed as the
unused payload). -/
def fireTimer (env : Env) (f tid : Nat) (s : EState) : EState :=
  match lookupA s.timers tid with
  | some true =>
    step env f (Op.opCmds 0 (env.tbeh tid)) { s with timers := updateA s.timers tid false }
  | _ => s

/-- `take(event)`, state effect: a fresh deferred `d` whose `resolve` closure
gets identity `r` (body `[Cmd.resolveD d]`), registered through `once` with
adapter identity `w`.  The returned promise is the deferred `d`. -/
def take (e d r w : Nat) (s : EState) : EState :=
  once e w r (createDeferred d s)

/-- `takeTimeout(event, timeout)`, state effect: a fresh deferred `d`, a timer
`tid` whose callback body is `[Cmd.unsubL e w, Cmd.rejectU d]`, and a
once-registration of the closure with identity `r` and body
`[Cmd.clearT tid, Cmd.resolveD d]`, through adapter identity `w`. -/
def takeTimeout (e d tid r w : Nat) (s : EState) : EState :=
  once e w r (setTimer tid (createDeferred d s))

/-- `takeEither(success, failure)`, state effect: a fresh deferred `d`; a
once-registration on `es` of the closure `ls` (body
`[Cmd.unsubL ef wf, Cmd.resolveD d]`) through adapter `ws`, then a
once-registration on `ef` of the closure `lf` (body
`[Cmd.unsubL es ws, Cmd.rejectV d]`) through adapter `wf`. -/
def takeEither (es ef d ls ws lf wf : Nat) (s : EState) : EState :=
  once ef wf lf (once es ws ls (createDeferred d s))

/-- Run a list of top-level `emit` calls `(event, payload)`, oldest first,
giving each call the same fuel. -/
def runEmits (env : Env) (f : Nat) (l : List (Nat × Nat)) (s : EState) : EState :=
  l.foldl (fun t p => emit env f p.1 p.2 t) s

/-- Call `on e lid` the given number of times. -/
def onTimes (e lid : Nat) : Nat → EState → EState
  | 0, s => s
  | n + 1, s => onE e lid (onTimes e lid n s)

/-- Is listener `lid` currently a live member of the set of event `e`? -/
def aliveIn (e lid : Nat) (s : EState) : Bool :=
  match lookupA s.registry e with
  | none => false
  | some sid =>
    match lookupA s.sets sid with
    | none => false
    | some entries => setHasAlive entries lid

/-- Does event `e` currently have no live listener (no registry entry, or a
set with only tombstones)? -/
def noAliveListeners (e : Nat) (s : EState) : Bool :=
  match lookupA s.registry e with
  | none => true
  | some sid =>
    match lookupA s.sets sid with
    | none => true
    | some entries => entries.all (fun p => !p.2)

/-- An environment in which every listener body and timer body is empty. -/
def envNil : Env := { beh := fun _ _ => [], tbeh := fun _ => [] }

/-- An environment in which every listener is a plain user listener that only
performs an opaque user action. -/
def envNote : Env := { beh := fun _ _ => [Cmd.note 1], tbeh := fun _ => [] }

/-- Environment for the C1 counterexample: listener `1`, when invoked,
registers listener `2` for event `0` and then performs a user action;
listener `2` is a plain user listener. -/
def envAdder : Env :=
  { beh := fun lid _ =>
      if lid = 1 then [Cmd.onL 0 2, Cmd.note 5]
      else if lid = 2 then [Cmd.note 6]
      else [],
    tbeh := fun _ => [] }

/-- Environment for the C3 counterexample: listener `0` is the adapter created
by `once(0, listener 1)`; listener `1` re-entrantly emits event `0` (payload
`7`) the first time it runs, and does nothing on later invocations. -/
def envReemit : Env :=
  { beh := fun lid k =>
      if lid = 0 then onceProg 0 0 1
      else if k = 0 then [Cmd.emitC 0 7] else [],
    tbeh := fun _ => [] }

/-- Environment realizing `once(e, listener)` with adapter identity `0` and a
plain user listener of identity `1` performing action `t`. -/
def envOnce (e t : Nat) : Env :=
  { beh := fun lid _ => if lid = 0 then onceProg e 0 1 else [Cmd.note t],
    tbeh := fun _ => [] }

/-- Environment realizing `take(0)` with deferred `0`, resolve closure `1`,
adapter `2`. -/
def envTake : Env :=
  { beh := fun lid _ =>
      if lid = 1 then [Cmd.resolveD 0]
      else if lid = 2 then onceProg 0 2 1
      else [],
    tbeh := fun _ => [] }

/-- Environment realizing `takeTimeout(0, t)` with deferred `0`, timer `1`,
resolve-side closure `2`, adapter `3`. -/
def envTimeout : Env :=
  { beh := fun lid _ =>
      if lid = 2 then [Cmd.clearT 1, Cmd.resolveD 0]
      else if lid = 3 then onceProg 0 3 2
      else [],
    tbeh := fun tid => if tid = 1 then [Cmd.unsubL 0 3, Cmd.rejectU 0] else [] }

/-- Environment realizing `takeEither(7, 9)` with deferred `0`, success
closure `1`, success adapter `2`, failure closure `3`, failure adapter `4`. -/
def envEither : Env :=
  { beh := fun lid _ =>
      if lid = 1 then [Cmd.unsubL 9 4, Cmd.resolveD 0]
      else if lid = 2 then onceProg 7 2 1
      else if lid = 3 then [Cmd.unsubL 7 2, Cmd.rejectV 0]
      else if lid = 4 then onceProg 9 4 3
      else [],
    tbeh := fun _ => [] }

/-- The family of states reachable in the `once(e, listener 1)` scenario of
claim C3: adapter `0` registered for `e` (alive or already spent), with the
given invocation and user-action logs. -/
def onceScenario (e : Nat) (alive : Bool) (cs ns : List (Nat × Nat)) : EState :=
  { sets := [(0, [(0, alive)])], registry := [(e, 0)], nextSid := 1,
    calls := cs, notes := ns, deferreds := [], timers := [] }

@[simp]
theorem lookupA_nil {α : Type} (k : Nat) : lookupA ([] : List (Nat × α)) k = none := rfl

@[simp]
theorem lookupA_cons_self {α : Type} (k : Nat) (a : α) (l : List (Nat × α)) :
    lookupA ((k, a) :: l) k = some a := by
  simp [lookupA]

theorem lookupA_cons_ne {α : Type} {k k2 : Nat} (h : k ≠ k2) (a : α) (l : List (Nat × α)) :
    lookupA ((k, a) :: l) k2 = lookupA l k2 := by
  simp [lookupA, h]

theorem updateA_of_lookupA_self {α : Type} {l : List (Nat × α)} {k : Nat} {a : α}
    (h : lookupA l k = some a) : updateA l k a = l := by
  induction l with
  | nil => simp [lookupA] at h
  | cons p l ih =>
    obtain ⟨k2, b⟩ := p
    by_cases hk : k2 = k
    · subst hk
      simp [lookupA] at h
      simp [updateA, h]
    · rw [lookupA_cons_ne hk] at h
      simp [updateA, hk, ih h]

theorem setHasAlive_cons (k lid : Nat) (b : Bool) (l : List (Nat × Bool)) :
    setHasAlive ((k, b) :: l) lid = (decide (k = lid) && b || setHasAlive l lid) := by
  simp [setHasAlive]

theorem setDelete_cons (k lid : Nat) (b : Bool) (l : List (Nat × Bool)) :
    setDelete ((k, b) :: l) lid =
      (if k = lid then (k, false) else (k, b)) :: setDelete l lid := rfl

theorem setDelete_of_not_alive {l : List (Nat × Bool)} {lid : Nat}
    (h : setHasAlive l lid = false) : setDelete l lid = l := by
  induction l with
  | nil => rfl
  | cons p l ih =>
    obtain ⟨k, b⟩ := p
    rw [setHasAlive_cons] at h
    rcases Bool.or_eq_false_iff.mp h with ⟨hb, hl⟩
    rw [setDelete_cons, ih hl]
    by_cases hk : k = lid
    · subst hk
      have hb2 : b = false := by simpa using hb
      simp [hb2]
    · simp [hk]

theorem setHasAlive_setDelete_self (l : List (Nat × Bool)) (lid : Nat) :
    setHasAlive (setDelete l lid) lid = false := by
  induction l with
  | nil => rfl
  | cons p l ih =>
    obtain ⟨k, b⟩ := p
    by_cases hk : k = lid
    · subst hk
      simp [setDelete_cons, setHasAlive_cons, ih]
    · simp [setDelete_cons, setHasAlive_cons, hk, ih]

theorem setHasAlive_setDelete_ne {lid lid2 : Nat} (h : lid2 ≠ lid) (l : List (Nat × Bool)) :
    setHasAlive (setDelete l lid) lid2 = setHasAlive l lid2 := by
  induction l with
  | nil => rfl
  | cons p l ih =>
    obtain ⟨k, b⟩ := p
    by_cases hk : k = lid
    · subst hk
      simp [setDelete_cons, setHasAlive_cons, Ne.symm h, ih]
    · simp [setDelete_cons, setHasAlive_cons, hk, ih]

/-- Iterating a set object the state does not know is a no-op. -/
theorem step_forEach_no_set (env : Env) {sid : Nat} {s : EState}
    (hs : lookupA s.sets sid = none) :
    ∀ f v i, step env f (Op.opForEach sid v i) s = s := by
  intro f
  cases f with
  | zero => intro v i; rfl
  | succ f => intro v i; simp [step, hs]

/-- If every entry of the set being iterated is a tombstone, the in-progress
`forEach` does nothing (at any index, with any fuel). -/
theorem step_forEach_all_dead (env : Env) {sid : Nat} {s : EState} {entries : List (Nat × Bool)}
    (hs : lookupA s.sets sid = some entries) (hdead : entries.all (fun p => !p.2) = true) :
    ∀ f v i, step env f (Op.opForEach sid v i) s = s := by
  intro f
  induction f with
  | zero => intro v i; rfl
  | succ f ih =>
    intro v i
    cases hg : entries[i]? with
    | none => simp [step, hs, hg]
    | some p =>
      have hp : p.2 = false := by
        have hmem : p ∈ entries := List.getElem?_mem hg
        simpa using List.all_eq_true.mp hdead p hmem
      simp [step, hs, hg, hp, ih]

/-- `emit` of an event with no live listener is a no-op: the source looks the
event up, and `forEach` over a set of tombstones does nothing. -/
theorem emit_of_noAlive (env : Env) {e : Nat} {s : EState}
    (h : noAliveListeners e s = true) : ∀ f v, emit env f e v s = s := by
  intro f v
  cases f with
  | zero => rfl
  | succ f =>
    cases hr : lookupA s.registry e with
    | none => simp [emit, step, hr]
    | some sid =>
      have h2 : (match lookupA s.sets sid with
          | none => true
          | some entries => entries.all fun p => !p.2) = true := by
        unfold noAliveListeners at h
        rw [hr] at h
        exact h
      cases hss : lookupA s.sets sid with
      | none => simpa [emit, step, hr] using step_forEach_no_set env hss f v 0
      | some entries =>
        rw [hss] at h2
        simpa [emit, step, hr] using step_forEach_all_dead env hss h2 f v 0

theorem lookupA_updateA_self {α : Type} (l : List (Nat × α)) (k : Nat) (a : α) :
    lookupA (updateA l k a) k = some a := by
  induction l with
  | nil => simp [updateA, lookupA]
  | cons p l ih =>
    obtain ⟨k2, b⟩ := p
    by_cases hk : k2 = k
    · subst hk
      simp [updateA, lookupA]
    · simp [updateA, lookupA, hk, ih]

/-- A state in which no event has live listeners absorbs any sequence of
top-level `emit` calls. -/
theorem runEmits_of_noAlive (env : Env) {s : EState}
    (h : ∀ e2, noAliveListeners e2 s = true) (F : Nat) :
    ∀ l : List (Nat × Nat), runEmits env F l s = s := by
  intro l
  induction l with
  | nil => rfl
  | cons p l ih =>
    show runEmits env F l (emit env F p.1 p.2 s) = s
    rw [emit_of_noAlive env (h p.1) F p.2]
    exact ih

/-- C8: the function returned by `emitCallback(event)`, applied to payload
`v`, has exactly the effect of `emit(event, v)` on any emitter state: the
source returns the closure `(value) => this.emit(event, value)`. -/
theorem c8_emitCallback_is_emit (env : Env) (f e v : Nat) (s : EState) :
    emitCallback env f e v s = emit env f e v s := rfl

/-- C9: emitting an event with no registered listeners — never registered,
emptied by unsubscription, or cleared by `off` — is a no-op: no listener is
invoked, nothing fails, and the whole emitter state (registry included) is
unchanged. -/
theorem c9_emit_without_listeners_noop (env : Env) (f e v : Nat) (s : EState)
    (h : noAliveListeners e s = true) : emit env f e v s = s :=
  emit_of_noAlive env h f v

/-- Witness for C9 at a concrete input: the fresh emitter has no listener for
event `0`, and emitting on it changes nothing. -/
theorem c9_witness : noAliveListeners 0 init = true ∧ emit envNil 9 0 5 init = init :=
  ⟨by decide, c9_emit_without_listeners_noop envNil 9 0 5 init (by decide)⟩

/-- C10: registrations are not reference-counted.  Registering the same
listener identity twice via `on` and invoking the unsubscribe handle once
(the handles of both calls run the same closure body) removes the listener
entirely: it is no longer a member of the event's set, and a subsequent
emission does not invoke it (no call is recorded at all). -/
theorem c10_single_unsubscribe_removes_duplicate (env : Env) (f e v lid : Nat) :
    aliveIn e lid (unsub e lid (onE e lid (onE e lid init))) = false ∧
    (emit env (f + 12) e v (unsub e lid (onE e lid (onE e lid init)))).calls = [] := by
  have hstate : unsub e lid (onE e lid (onE e lid init)) =
      { sets := [(0, [(lid, false)])], registry := [(e, 0)], nextSid := 1,
        calls := [], notes := [], deferreds := [], timers := [] } := by
    simp [onE, unsub, init, lookupA, updateA, setAdd, setHasAlive, setDelete]
  rw [hstate]
  constructor
  · simp [aliveIn, lookupA, setHasAlive]
  · have hdead : noAliveListeners e
        { sets := [(0, [(lid, false)])], registry := [(e, 0)], nextSid := 1,
          calls := [], notes := [], deferreds := [], timers := [] } = true := by
      simp [noAliveListeners, lookupA]
    rw [emit_of_noAlive env hdead]

/-- C6: registering the same listener identity any positive number of times
via `on` and then emitting the event once invokes the listener exactly once,
with the emitted payload (the whole invocation log of the run is that single
call). -/
theorem c6_duplicate_registration_invoked_once (env : Env) (f e v n lid tag : Nat)
    (hbeh : ∀ k, env.beh lid k = [Cmd.note tag]) :
    (emit env (f + 12) e v (onTimes e lid (n + 1) init)).calls = [(lid, v)] := by
  have hstate : ∀ m, onTimes e lid (m + 1) init =
      { sets := [(0, [(lid, true)])], registry := [(e, 0)], nextSid := 1,
        calls := [], notes := [], deferreds := [], timers := [] } := by
    intro m
    induction m with
    | zero => simp [onTimes, onE, init, lookupA, updateA, setAdd, setHasAlive]
    | succ m ih =>
      show onE e lid (onTimes e lid (m + 1) init) = _
      rw [ih]
      simp [onE, lookupA, updateA, setAdd, setHasAlive]
  rw [hstate n]
  simp [emit, step, lookupA, updateA, setAdd, setHasAlive, countCalls, hbeh]

/-- Witness for C6 at a concrete input: three registrations of listener `1`,
one emission of event `0` with payload `42`, exactly one recorded call. -/
theorem c6_witness : (emit envNote 12 0 42 (onTimes 0 1 3 init)).calls = [(1, 42)] :=
  c6_duplicate_registration_invoked_once envNote 0 0 42 2 1 1 (fun _ => rfl)

/-- Counterexample to C1 as stated.  Listener `1` is registered for event `0`;
during the emission of `0` it registers listener `2` for the same event.  The
claim says listener `2` is not invoked during that same emission, but the
source iterates the live `Set` (`listeners.forEach`), so the appended
listener is reached: the emission's invocation log is `[(1, 9), (2, 9)]`,
and in particular listener `2` is invoked. -/
theorem c1_counterexample :
    (emit envAdder 30 0 9 (onE 0 1 init)).calls = [(1, 9), (2, 9)] ∧
    ¬ countCalls 2 (emit envAdder 30 0 9 (onE 0 1 init)) = 0 := by decide

/-- C1 amended: `emit` does not iterate a snapshot but the live set: if a
listener, during an emission of its event, registers a new listener (not
previously present) for the same event, the new listener IS invoked during
that same emission, after the members that were present at its start. -/
theorem c1_amended_live_set_iteration (env : Env) (f e v t1 t2 : Nat)
    (h1 : ∀ k, env.beh 1 k = [Cmd.onL e 2, Cmd.note t1])
    (h2 : ∀ k, env.beh 2 k = [Cmd.note t2]) :
    (emit env (f + 20) e v (onE e 1 init)).calls = [(1, v), (2, v)] := by
  have hstate : onE e 1 init =
      { sets := [(0, [(1, true)])], registry := [(e, 0)], nextSid := 1,
        calls := [], notes := [], deferreds := [], timers := [] } := by
    simp [onE, init, lookupA, updateA, setAdd, setHasAlive]
  rw [hstate]
  simp [emit, step, onE, lookupA, updateA, setAdd, setHasAlive, countCalls, h1, h2]

/-- Witness for the amended C1 at a concrete input. -/
theorem c1_amended_witness : (emit envAdder 20 0 9 (onE 0 1 init)).calls = [(1, 9), (2, 9)] :=
  c1_amended_live_set_iteration envAdder 0 0 9 5 6 (fun _ => rfl) (fun _ => rfl)

/-- Counterexample to C2 as stated.  Register listener `1` for event `0`
(getting an unsubscribe handle), call `off(0)`, register listener `1` again,
then invoke the old handle.  The claim says a handle issued before the `off`
never removes any listener afterwards; but the handle's closure re-reads the
registry at call time (`this.listeners.get(event)`), finds the new set, and
deletes the re-registered listener from it: the listener is live before the
handle runs, dead after it, and the next emission invokes nothing. -/
theorem c2_counterexample :
    aliveIn 0 1 (onE 0 1 (off 0 (onE 0 1 init))) = true ∧
    aliveIn 0 1 (unsub 0 1 (onE 0 1 (off 0 (onE 0 1 init)))) = false ∧
    (emit envNote 20 0 5 (unsub 0 1 (onE 0 1 (off 0 (onE 0 1 init))))).calls = [] := by
  decide

/-- C2 amended: after `off(event)` a previously returned unsubscribe handle
never fails, and it never removes any listener other than the one identity it
was bound to; it is a strict no-op whenever its listener identity is not a
live member of the event's current set (in particular right after `off`), but
if the same listener identity has been re-registered for the event, invoking
the handle removes it again. -/
theorem c2_amended_handle_semantics (s : EState) (e lid lid2 : Nat) :
    (aliveIn e lid s = false → unsub e lid s = s) ∧
    (lid2 ≠ lid → aliveIn e lid2 (unsub e lid s) = aliveIn e lid2 s) ∧
    aliveIn e lid (unsub e lid s) = false := by
  refine ⟨?_, ?_, ?_⟩
  · intro h
    cases hr : lookupA s.registry e with
    | none => simp [unsub, hr]
    | some sid =>
      cases hss : lookupA s.sets sid with
      | none => simp [unsub, hr, hss]
      | some entries =>
        have hdead : setHasAlive entries lid = false := by
          simpa [aliveIn, hr, hss] using h
        simp [unsub, hr, hss, setDelete_of_not_alive hdead,
          updateA_of_lookupA_self hss]
  · intro h
    cases hr : lookupA s.registry e with
    | none => simp [unsub, hr]
    | some sid =>
      cases hss : lookupA s.sets sid with
      | none => simp [unsub, hr, hss]
      | some entries =>
        simp [unsub, aliveIn, hr, hss, lookupA_updateA_self,
          setHasAlive_setDelete_ne h]
  · cases hr : lookupA s.registry e with
    | none => simp [unsub, aliveIn, hr]
    | some sid =>
      cases hss : lookupA s.sets sid with
      | none => simp [unsub, aliveIn, hr, hss]
      | some entries =>
        simp [unsub, aliveIn, hr, hss, lookupA_updateA_self,
          setHasAlive_setDelete_self]

/-- Witness for the amended C2 at concrete inputs: on the fresh emitter the
handle for `(0, listener 1)` is a strict no-op, and it does not disturb the
membership of listener `2`. -/
theorem c2_amended_witness :
    unsub 0 1 init = init ∧ aliveIn 0 2 (unsub 0 1 init) = aliveIn 0 2 init :=
  ⟨(c2_amended_handle_semantics init 0 1 2).1 (by decide),
   (c2_amended_handle_semantics init 0 1 2).2.1 (by decide)⟩

theorem runEmits_nil (env : Env) (F : Nat) (s : EState) : runEmits env F [] s = s := rfl

theorem runEmits_cons (env : Env) (F : Nat) (p : Nat × Nat) (l : List (Nat × Nat)) (s : EState) :
    runEmits env F (p :: l) s = runEmits env F l (emit env F p.1 p.2 s) := rfl

/-- Counterexample to C3 as stated.  `once(0, listener 1)` installs adapter
`0`; listener `1` re-entrantly emits event `0` from inside its first
invocation.  The adapter only unsubscribes itself after the inner listener
returns, so the re-entrant emission still finds it registered and the
original listener is invoked twice, against the claimed at-most-once bound:
the log shows calls of listener `1` with payload `5` and with payload `7`. -/
theorem c3_counterexample :
    countCalls 1 (emit envReemit 40 0 5 (once 0 0 1 init)) = 2 ∧
    (emit envReemit 40 0 5 (once 0 0 1 init)).calls = [(0, 5), (1, 5), (0, 7), (1, 7)] := by
  decide

/-- C3 amended: across any sequence of top-level `emit` calls (re-entrant
emission of the same event from inside the listener excluded — that is
exactly what the counterexample breaks), a `once`-registered listener is
invoked exactly once if its event is emitted, and not at all otherwise. -/
theorem c3_amended_once_exactly_once (env : Env) (e t f : Nat) (emits : List (Nat × Nat))
    (h0 : ∀ k, env.beh 0 k = onceProg e 0 1)
    (h1 : ∀ k, env.beh 1 k = [Cmd.note t]) :
    countCalls 1 (runEmits env (f + 12) emits (once e 0 1 init)) =
      (if emits.any (fun p => p.1 == e) then 1 else 0) := by
  have hinit : once e 0 1 init = onceScenario e true [] [] := by
    simp [once, onE, init, onceScenario, lookupA, updateA, setAdd, setHasAlive]
  have hdeadRun : ∀ (l : List (Nat × Nat)) (cs ns : List (Nat × Nat)) (F : Nat),
      runEmits env F l (onceScenario e false cs ns) = onceScenario e false cs ns := by
    intro l cs ns F
    apply runEmits_of_noAlive
    intro e2
    by_cases he : e = e2 <;> simp [noAliveListeners, onceScenario, lookupA, he]
  have hmiss : ∀ (e2 v : Nat) (cs ns : List (Nat × Nat)), e2 ≠ e →
      emit env (f + 12) e2 v (onceScenario e true cs ns) = onceScenario e true cs ns := by
    intro e2 v cs ns hne
    apply emit_of_noAlive
    simp [noAliveListeners, onceScenario, lookupA, Ne.symm hne]
  have hhit : ∀ (v : Nat) (cs ns : List (Nat × Nat)),
      emit env (f + 12) e v (onceScenario e true cs ns) =
        onceScenario e false (cs ++ [(0, v), (1, v)]) (ns ++ [(t, v)]) := by
    intro v cs ns
    simp [emit, step, onceScenario, lookupA, updateA, setAdd, setHasAlive, setDelete,
      unsub, countCalls, h0, h1, onceProg]
  have main : ∀ (l : List (Nat × Nat)) (cs ns : List (Nat × Nat)),
      countCalls 1 (runEmits env (f + 12) l (onceScenario e true cs ns)) =
        countCalls 1 (onceScenario e true cs ns) +
          (if l.any (fun p => p.1 == e) then 1 else 0) := by
    intro l
    induction l with
    | nil => intro cs ns; simp [runEmits_nil]
    | cons p l ih =>
      intro cs ns
      obtain ⟨e2, v2⟩ := p
      rw [runEmits_cons]
      by_cases he2 : e2 = e
      · subst he2
        rw [hhit v2 cs ns, hdeadRun]
        simp [countCalls, onceScenario, List.filter_append]
      · rw [hmiss e2 v2 cs ns he2, ih cs ns]
        have hb : (e2 == e) = false := by simp [he2]
        simp only [List.any_cons, hb, Bool.false_or]
  rw [hinit, main emits [] []]
  simp [countCalls, onceScenario]

/-- Witness for the amended C3 at a concrete input: two emissions of event
`0`, one of event `3`; the once-registered listener is invoked exactly once. -/
theorem c3_amended_witness :
    countCalls 1 (runEmits (envOnce 0 1) 12 [(3, 8), (0, 5), (0, 6)] (once 0 0 1 init)) = 1 := by
  have h := c3_amended_once_exactly_once (envOnce 0 1) 0 1 0 [(3, 8), (0, 5), (0, 6)]
    (fun _ => rfl) (fun _ => rfl)
  simpa using h

/-- C7: the future returned by `take(event)` resolves with exactly the payload
of the first emission of that event after the `take`, and any sequence of
further emissions (of this or any other event) leaves it settled with that
first payload: the once-adapter is spent, so nothing can touch the deferred
again. -/
theorem c7_take_resolves_with_first_payload (env : Env) (f e v1 : Nat)
    (emits : List (Nat × Nat))
    (hr : ∀ k, env.beh 1 k = [Cmd.resolveD 0])
    (hw : ∀ k, env.beh 2 k = onceProg e 2 1) :
    lookupA (runEmits env (f + 20) emits
        (emit env (f + 20) e v1 (take e 0 1 2 init))).deferreds 0 =
      some (DStatus.resolved v1) := by
  have hstate : emit env (f + 20) e v1 (take e 0 1 2 init) =
      { sets := [(0, [(2, false)])], registry := [(e, 0)], nextSid := 1,
        calls := [(2, v1), (1, v1)], notes := [],
        deferreds := [(0, DStatus.resolved v1)], timers := [] } := by
    simp [take, once, onE, createDeferred, init, emit, step, lookupA, updateA,
      setAdd, setHasAlive, setDelete, unsub, countCalls, resolveDef, hr, hw, onceProg]
  have hnd : ∀ e2, noAliveListeners e2
      ({ sets := [(0, [(2, false)])], registry := [(e, 0)], nextSid := 1,
         calls := [(2, v1), (1, v1)], notes := [],
         deferreds := [(0, DStatus.resolved v1)], timers := [] } : EState) = true := by
    intro e2
    by_cases he : e = e2 <;> simp [noAliveListeners, lookupA, he]
  rw [hstate, runEmits_of_noAlive env hnd (f + 20) emits]
  simp

/-- Witness for C7 at a concrete input: `take(0)` then emissions with
payloads `17`, `33`; the deferred holds `17`. -/
theorem c7_witness :
    lookupA (runEmits envTake 20 [(0, 33), (5, 1)]
        (emit envTake 20 0 17 (take 0 0 1 2 init))).deferreds 0 =
      some (DStatus.resolved 17) :=
  c7_take_resolves_with_first_payload envTake 0 0 17 [(0, 33), (5, 1)]
    (fun _ => rfl) (fun _ => rfl)

/-- C4: `takeTimeout(event, t)` has exactly two terminal outcomes.  If the
event is emitted first, the timer is cancelled (`clearTimeout` ran: the timer
is inactive and firing it later is a strict no-op) and the deferred resolves
with the emission's payload.  If the timer elapses first, the once-adapter is
unsubscribed, the deferred rejects with the empty (`undefined`) value, and a
subsequent emission of the event is a strict no-op on the state, leaving the
settled deferred untouched. -/
theorem c4_takeTimeout_two_outcomes (env : Env) (f e v v2 : Nat)
    (hr : ∀ k, env.beh 2 k = [Cmd.clearT 1, Cmd.resolveD 0])
    (hw : ∀ k, env.beh 3 k = onceProg e 3 2)
    (ht : env.tbeh 1 = [Cmd.unsubL e 3, Cmd.rejectU 0]) :
    (lookupA (emit env (f + 20) e v (takeTimeout e 0 1 2 3 init)).deferreds 0 =
        some (DStatus.resolved v) ∧
      lookupA (emit env (f + 20) e v (takeTimeout e 0 1 2 3 init)).timers 1 = some false ∧
      fireTimer env (f + 20) 1 (emit env (f + 20) e v (takeTimeout e 0 1 2 3 init)) =
        emit env (f + 20) e v (takeTimeout e 0 1 2 3 init)) ∧
    (lookupA (fireTimer env (f + 20) 1 (takeTimeout e 0 1 2 3 init)).deferreds 0 =
        some (DStatus.rejected none) ∧
      aliveIn e 3 (fireTimer env (f + 20) 1 (takeTimeout e 0 1 2 3 init)) = false ∧
      emit env (f + 20) e v2 (fireTimer env (f + 20) 1 (takeTimeout e 0 1 2 3 init)) =
        fireTimer env (f + 20) 1 (takeTimeout e 0 1 2 3 init)) := by
  have hA : emit env (f + 20) e v (takeTimeout e 0 1 2 3 init) =
      { sets := [(0, [(3, false)])], registry := [(e, 0)], nextSid := 1,
        calls := [(3, v), (2, v)], notes := [],
        deferreds := [(0, DStatus.resolved v)], timers := [(1, false)] } := by
    simp [takeTimeout, once, onE, createDeferred, setTimer, init, emit, step, lookupA,
      updateA, setAdd, setHasAlive, setDelete, unsub, countCalls, resolveDef, clearTimer,
      hr, hw, onceProg]
  have hB : fireTimer env (f + 20) 1 (takeTimeout e 0 1 2 3 init) =
      { sets := [(0, [(3, false)])], registry := [(e, 0)], nextSid := 1,
        calls := [], notes := [],
        deferreds := [(0, DStatus.rejected none)], timers := [(1, false)] } := by
    simp [takeTimeout, once, onE, createDeferred, setTimer, init, fireTimer, step,
      lookupA, updateA, setAdd, setHasAlive, setDelete, unsub, countCalls, rejectDef, ht]
  refine ⟨⟨?_, ?_, ?_⟩, ?_, ?_, ?_⟩
  · rw [hA]; simp
  · rw [hA]; simp [lookupA]
  · rw [hA]; simp [fireTimer, lookupA]
  · rw [hB]; simp
  · rw [hB]; simp [aliveIn, lookupA, setHasAlive]
  · rw [hB]
    apply emit_of_noAlive
    simp [noAliveListeners, lookupA]

/-- Witness for C4 at concrete inputs (event `0`, payload `42`). -/
theorem c4_witness :
    lookupA (emit envTimeout 20 0 42 (takeTimeout 0 0 1 2 3 init)).deferreds 0 =
        some (DStatus.resolved 42) ∧
      lookupA (fireTimer envTimeout 20 1 (takeTimeout 0 0 1 2 3 init)).deferreds 0 =
        some (DStatus.rejected none) :=
  ⟨(c4_takeTimeout_two_outcomes envTimeout 0 0 42 7 (fun _ => rfl) (fun _ => rfl) rfl).1.1,
   (c4_takeTimeout_two_outcomes envTimeout 0 0 42 7 (fun _ => rfl) (fun _ => rfl) rfl).2.1⟩

/-- C5: `takeEither(success, failure)` settles with whichever of the two
events is emitted first.  Success first: the failure adapter is unsubscribed,
the deferred resolves with the success payload, and a later emission of the
failure event is a strict no-op.  Failure first: the success adapter is
unsubscribed, the deferred rejects with the failure payload, and a later
emission of the success event is a strict no-op. -/
theorem c5_takeEither_first_event_wins (env : Env) (f es ef v v2 : Nat) (hne : es ≠ ef)
    (hls : ∀ k, env.beh 1 k = [Cmd.unsubL ef 4, Cmd.resolveD 0])
    (hws : ∀ k, env.beh 2 k = onceProg es 2 1)
    (hlf : ∀ k, env.beh 3 k = [Cmd.unsubL es 2, Cmd.rejectV 0])
    (hwf : ∀ k, env.beh 4 k = onceProg ef 4 3) :
    (lookupA (emit env (f + 20) es v (takeEither es ef 0 1 2 3 4 init)).deferreds 0 =
        some (DStatus.resolved v) ∧
      emit env (f + 20) ef v2 (emit env (f + 20) es v (takeEither es ef 0 1 2 3 4 init)) =
        emit env (f + 20) es v (takeEither es ef 0 1 2 3 4 init)) ∧
    (lookupA (emit env (f + 20) ef v2 (takeEither es ef 0 1 2 3 4 init)).deferreds 0 =
        some (DStatus.rejected (some v2)) ∧
      emit env (f + 20) es v (emit env (f + 20) ef v2 (takeEither es ef 0 1 2 3 4 init)) =
        emit env (f + 20) ef v2 (takeEither es ef 0 1 2 3 4 init)) := by
  have hS : emit env (f + 20) es v (takeEither es ef 0 1 2 3 4 init) =
      { sets := [(0, [(2, false)]), (1, [(4, false)])],
        registry := [(es, 0), (ef, 1)], nextSid := 2,
        calls := [(2, v), (1, v)], notes := [],
        deferreds := [(0, DStatus.resolved v)], timers := [] } := by
    simp [takeEither, once, onE, createDeferred, init, emit, step, lookupA, updateA,
      setAdd, setHasAlive, setDelete, unsub, countCalls, resolveDef,
      hls, hws, onceProg, hne, Ne.symm hne]
  have hF : emit env (f + 20) ef v2 (takeEither es ef 0 1 2 3 4 init) =
      { sets := [(0, [(2, false)]), (1, [(4, false)])],
        registry := [(es, 0), (ef, 1)], nextSid := 2,
        calls := [(4, v2), (3, v2)], notes := [],
        deferreds := [(0, DStatus.rejected (some v2))], timers := [] } := by
    simp [takeEither, once, onE, createDeferred, init, emit, step, lookupA, updateA,
      setAdd, setHasAlive, setDelete, unsub, countCalls, rejectDef,
      hlf, hwf, onceProg, hne, Ne.symm hne]
  refine ⟨⟨?_, ?_⟩, ?_, ?_⟩
  · rw [hS]; simp
  · rw [hS]
    apply emit_of_noAlive
    simp [noAliveListeners, lookupA, hne]
  · rw [hF]; simp
  · rw [hF]
    apply emit_of_noAlive
    simp [noAliveListeners, lookupA]

/-- Witness for C5 at concrete inputs: success event `7`, failure event `9`. -/
theorem c5_witness :
    lookupA (emit envEither 20 7 5 (takeEither 7 9 0 1 2 3 4 init)).deferreds 0 =
        some (DStatus.resolved 5) ∧
      lookupA (emit envEither 20 9 11 (takeEither 7 9 0 1 2 3 4 init)).deferreds 0 =
        some (DStatus.rejected (some 11)) :=
  ⟨(c5_takeEither_first_event_wins envEither 0 7 9 5 11 (by decide)
      (fun _ => rfl) (fun _ => rfl) (fun _ => rfl) (fun _ => rfl)).1.1,
   (c5_takeEither_first_event_wins envEither 0 7 9 5 11 (by decide)
      (fun _ => rfl) (fun _ => rfl) (fun _ => rfl) (fun _ => rfl)).2.1⟩

end Emitting
